import Mathlib

/-!
Verification of the n8n adapter (`a2a_adapters/integrations/n8n.py`) against
its natural-language specification.

The Python source is shallowly embedded below:
* inbound protocol messages, parts and `MessageSendParams` become structures;
* JSON values become the inductive `JVal`; Python dicts become association
  lists whose `List.lookup` finds the effective binding;
* the retry loop of `call_framework` becomes the recursive `runAttempts`,
  which records the result, the backoff delays slept, the number of attempts
  made, and the headers sent on each attempt; the Python float `backoff` is
  modelled exactly as a rational (all quantities involved are powers of two);
* `uuid.uuid4()` becomes a fresh-name generator threaded through calls,
  modelling only the freshness guarantee;
* the implicit `return None` reached when the retry loop falls through on a
  final transport error is modelled as the `Except.ok none` outcome.
-/

namespace A2A

/-- A typed content part of an inbound protocol message.  `text` is `none`
when the part has no `text` attribute or its `text` is `None`; the source
turns both into `""` via `getattr(it, "text", "")` and `(t or "")`. -/
structure Part where
  text : Option String
deriving DecidableEq, Repr

/-- The `content` attribute of an inbound message: a plain string, a list of
typed parts, some other type, or absent altogether. -/
inductive MsgContent where
  | str (s : String)
  | parts (ps : List Part)
  | other
  | missing
deriving DecidableEq, Repr

/-- An inbound protocol message, as far as `to_framework` inspects it. -/
structure InMessage where
  content : MsgContent
deriving DecidableEq, Repr

/-- The `MessageSendParams` fields read by the adapter.  `session_id` and
`context` are read with `getattr(params, _, None)`, hence optional. -/
structure MessageSendParams where
  messages : List InMessage
  session_id : Option String
  context : Option String
deriving DecidableEq, Repr

/-- JSON-like values (Python objects produced by `resp.json()` and fed to
`json.dumps` / `str`). -/
inductive JVal where
  | s (v : String)
  | n (v : Int)
  | b (v : Bool)
  | null
  | arr (vs : List JVal)
  | obj (fs : List (String × JVal))

mutual

/-- Python `repr(x)`, used for elements nested inside containers. -/
def pyRepr : JVal → String
  | .s v => "\x27" ++ v ++ "\x27"
  | .n v => toString v
  | .b v => if v then "True" else "False"
  | .null => "None"
  | .arr vs => "[" ++ pyReprList vs ++ "]"
  | .obj fs => "\x7b" ++ pyReprObj fs ++ "\x7d"

/-- Comma-separated `repr`s of list elements. -/
def pyReprList : List JVal → String
  | [] => ""
  | [v] => pyRepr v
  | v :: vs => pyRepr v ++ ", " ++ pyReprList vs

/-- Comma-separated `repr`s of dict entries. -/
def pyReprObj : List (String × JVal) → String
  | [] => ""
  | [(k, v)] => pyRepr (.s k) ++ ": " ++ pyRepr v
  | (k, v) :: fs => pyRepr (.s k) ++ ": " ++ pyRepr v ++ ", " ++ pyReprObj fs

end

/-- Python `str(x)` on a JSON-like value. -/
def pyStr : JVal → String
  | .s v => v
  | .n v => toString v
  | .b v => if v then "True" else "False"
  | .null => "None"
  | .arr vs => "[" ++ pyReprList vs ++ "]"
  | .obj fs => "\x7b" ++ pyReprObj fs ++ "\x7d"

/-- Python `s.strip()`: remove leading and trailing whitespace. -/
def pyStrip (s : String) : String :=
  ⟨((s.data.dropWhile Char.isWhitespace).reverse.dropWhile
      Char.isWhitespace).reverse⟩

/-- Python `s[:n]`: the first `n` characters of `s`. -/
def pyTake (n : Nat) (s : String) : String := ⟨s.data.take n⟩

/-- A JSON string literal (escaping is not needed by any claim, so plain
quoting models `json.dumps` on the strings that occur here). -/
def jsonQuote (s : String) : String := "\"" ++ s ++ "\""

/-- `n` levels of two-space indentation, as produced by `json.dumps(_, indent=2)`. -/
def indentStr (n : Nat) : String := String.join (List.replicate n "  ")

mutual

/-- Python `json.dumps(v, indent=2)` at indentation depth `ind`. -/
def dumpVal (ind : Nat) : JVal → String
  | .s v => jsonQuote v
  | .n v => toString v
  | .b v => if v then "true" else "false"
  | .null => "null"
  | .arr [] => "[]"
  | .arr (v :: vs) =>
    "[\n" ++ dumpArr (ind + 1) (v :: vs) ++ "\n" ++ indentStr ind ++ "]"
  | .obj [] => "\x7b\x7d"
  | .obj (f :: fs) =>
    "\x7b\n" ++ dumpObj (ind + 1) (f :: fs) ++ "\n" ++ indentStr ind ++ "\x7d"

/-- Indented, comma-separated dump of array elements. -/
def dumpArr (ind : Nat) : List JVal → String
  | [] => ""
  | [v] => indentStr ind ++ dumpVal ind v
  | v :: vs => indentStr ind ++ dumpVal ind v ++ ",\n" ++ dumpArr ind vs

/-- Indented, comma-separated dump of object entries. -/
def dumpObj (ind : Nat) : List (String × JVal) → String
  | [] => ""
  | [(k, v)] => indentStr ind ++ jsonQuote k ++ ": " ++ dumpVal ind v
  | (k, v) :: fs =>
    indentStr ind ++ jsonQuote k ++ ": " ++ dumpVal ind v ++ ",\n" ++ dumpObj ind fs

end

/-- `json.dumps(framework_output, indent=2)` on a top-level response dict. -/
def jsonDumps (out : List (String × JVal)) : String := dumpVal 0 (.obj out)

/-- A text content part of an outbound A2A `Message` (`TextPart(type=_, text=_)`). -/
structure TextPart where
  type : String
  text : String
deriving DecidableEq, Repr

/-- An outbound A2A `Message(role=_, content=[...])`. -/
structure Message where
  role : String
  content : List TextPart
deriving DecidableEq, Repr

/-! ### Message Translator (`to_framework` / `from_framework`) -/

/-- The accumulation loop inside `_extract_text` over a list of parts:
`t = getattr(it, "text", ""); t = (t or "").strip(); if t: parts.append(t)`. -/
def partTexts : List Part → List String
  | [] => []
  | p :: ps =>
    let t := pyStrip (p.text.getD "")
    if t = "" then partTexts ps else t :: partTexts ps

/-- The inner `_extract_text(msg)` of `to_framework`: a missing `content`
attribute yields `""`; a string is stripped; a list of parts is joined by
single spaces after per-part stripping; any other content type yields `""`. -/
def _extract_text (m : InMessage) : String :=
  match m.content with
  | .missing => ""
  | .str s => pyStrip s
  | .parts ps => String.intercalate " " (partTexts ps)
  | .other => ""

/-- The `user_message` computed by `to_framework`: the text extracted from
the last message, or `""` when the message list is empty. -/
def userMessage (params : MessageSendParams) : String :=
  match params.messages.getLast? with
  | none => ""
  | some m => _extract_text m

/-- Embed `getattr(params, _, None)` results into JSON payload values. -/
def joptStr : Option String → JVal
  | none => .null
  | some s => .s s

/-- `to_framework`: the n8n webhook payload
`{"message": user_message, "metadata": {"session_id": ..., "context": ...}}`. -/
def to_framework (params : MessageSendParams) : List (String × JVal) :=
  [("message", .s (userMessage params)),
   ("metadata", .obj
     [("session_id", joptStr params.session_id),
      ("context", joptStr params.context)])]

/-- `from_framework`: select the reply text under the keys `output`,
`result`, `message` in that order (stringified), falling back to
`json.dumps(framework_output, indent=2)`, and wrap it in a single
assistant-role message with a single text part. -/
def from_framework (out : List (String × JVal)) : Message :=
  let response_text :=
    match out.lookup "output" with
    | some v => pyStr v
    | none =>
      match out.lookup "result" with
      | some v => pyStr v
      | none =>
        match out.lookup "message" with
        | some v => pyStr v
        | none => jsonDumps out
  ⟨"assistant", [⟨"text", response_text⟩]⟩

/-! ### Dispatch Engine (`call_framework`) -/

/-- The transport exceptions caught by the retry loop
(`except (ConnectError, ReadTimeout)`). -/
inductive TransportErr where
  | connectError
  | readTimeout
deriving DecidableEq, Repr

/-- The outcome the environment produces for one `client.post` attempt:
either an HTTP response (status, raw body text, parsed JSON body, measured
elapsed milliseconds) or a caught transport exception. -/
inductive AttemptOut where
  | response (status : Nat) (body : String) (jsonBody : List (String × JVal)) (durMs : Nat)
  | transport (e : TransportErr)

/-- The exceptions `call_framework` raises itself: the `ValueError` for a
4xx status (carrying request id, status, elapsed time and the body preview
truncated to 512 characters) and the `RuntimeError` after exhausting
retries on an `HTTPStatusError` (carrying request id and the causing
status). -/
inductive CallError where
  | clientError (reqId : Nat) (status : Nat) (durMs : Nat) (preview : String)
  | upstream5xx (reqId : Nat) (causeStatus : Nat)
deriving DecidableEq, Repr

/-- Everything observable about one run of the retry loop: its result
(`Except.ok none` is the implicit `return None` reached when the loop falls
through after a final transport error), the backoff delays slept in seconds,
the number of attempts made, and the headers sent with each attempt. -/
structure DispatchTrace where
  result : Except CallError (Option (List (String × JVal)))
  delays : List ℚ
  attempts : Nat
  sentHeaders : List (List (String × String))

/-- The retry loop of `call_framework`, iterating over the remaining attempt
indices (the whole loop runs over `range(max_retries + 1)`, so a tail `rest`
is empty exactly when `attempt == max_retries`):
* an exhausted index list is the loop falling through: the source has no
  final raise after the loop, so the function returns `None`;
* a 4xx status raises `ValueError` immediately (the exception is not caught
  by the two `except` clauses, so no retry and no sleep on any attempt);
* a 2xx status returns `resp.json()`;
* any other status raises `HTTPStatusError` via `raise_for_status`: sleep
  `backoff * 2 ^ attempt` and retry while `attempt < max_retries`, else
  raise `RuntimeError`;
* a `ConnectError`/`ReadTimeout`: sleep `backoff * 2 ^ attempt` and retry
  while `attempt < max_retries`, else the `except` block ends without
  raising and the loop simply terminates. -/
def runAttempts (beh : Nat → AttemptOut) (backoff : ℚ) (reqId : Nat)
    (hdrs : List (String × String)) : List Nat → DispatchTrace
  | [] => ⟨.ok none, [], 0, []⟩
  | attempt :: rest =>
    match beh attempt with
    | .response status body jsonBody durMs =>
      if 400 ≤ status ∧ status < 500 then
        ⟨.error (.clientError reqId status durMs (pyTake 512 body)), [], 1, [hdrs]⟩
      else if 200 ≤ status ∧ status < 300 then
        ⟨.ok (some jsonBody), [], 1, [hdrs]⟩
      else
        match rest with
        | [] => ⟨.error (.upstream5xx reqId status), [], 1, [hdrs]⟩
        | _ :: _ =>
          let t := runAttempts beh backoff reqId hdrs rest
          ⟨t.result, backoff * 2 ^ attempt :: t.delays, t.attempts + 1,
           hdrs :: t.sentHeaders⟩
    | .transport _ =>
      match rest with
      | [] =>
        let t := runAttempts beh backoff reqId hdrs rest
        ⟨t.result, t.delays, t.attempts + 1, hdrs :: t.sentHeaders⟩
      | _ :: _ =>
        let t := runAttempts beh backoff reqId hdrs rest
        ⟨t.result, backoff * 2 ^ attempt :: t.delays, t.attempts + 1,
         hdrs :: t.sentHeaders⟩

/-- The adapter configuration after `__init__` ran. -/
structure N8nAgentAdapter where
  webhook_url : String
  timeout : Int
  headers : List (String × String)
  max_retries : Nat
  backoff : ℚ

/-- `__init__`: stores the configuration; `max_retries` is normalized with
`max(0, int(max_retries))`.  The Python defaults are `timeout=30`,
`headers=None`, `max_retries=2`, `backoff=0.25`. -/
def mkAdapter (webhook_url : String) (timeout : Int)
    (headers : List (String × String)) (max_retries : Int) (backoff : ℚ) :
    N8nAgentAdapter :=
  ⟨webhook_url, timeout, headers, (max 0 max_retries).toNat, backoff⟩

/-- The state of `uuid.uuid4()` modelled as a fresh-name generator: only the
freshness of the drawn identifiers is represented. -/
structure UuidGen where
  counter : Nat
deriving DecidableEq, Repr

/-- Draw a fresh request id. -/
def uuid4 (g : UuidGen) : Nat × UuidGen := (g.counter, ⟨g.counter + 1⟩)

/-- The headers dict built once per call:
`{"Content-Type": ..., "X-Request-Id": req_id, **self.headers}`.
Custom headers are listed first so that `List.lookup` — the effective
binding — gives them precedence, matching dict-merge override order. -/
def requestHeaders (ad : N8nAgentAdapter) (reqId : Nat) :
    List (String × String) :=
  ad.headers ++
    [("Content-Type", "application/json"), ("X-Request-Id", toString reqId)]

/-- `call_framework`: draw a fresh request id, build the headers once, and
run the retry loop with `attempt` ranging over `0 .. max_retries`.  Returns
the dispatch trace, the request id used, and the advanced generator. -/
def call_framework (ad : N8nAgentAdapter) (beh : Nat → AttemptOut)
    (g : UuidGen) : DispatchTrace × Nat × UuidGen :=
  let (reqId, g2) := uuid4 g
  let hdrs := requestHeaders ad reqId
  (runAttempts beh ad.backoff reqId hdrs (List.range (ad.max_retries + 1)),
   reqId, g2)

/-! ### Pooled HTTP client lifecycle (`_get_client` / `close`) -/

/-- An `httpx.AsyncClient` instance, distinguished by an allocation number
so that re-creation after `close` is observable. -/
structure Client where
  gen : Nat
deriving DecidableEq, Repr

/-- The mutable client slot of the adapter (`self._client`), together with
the allocation counter used to model `httpx.AsyncClient(...)` creating a
fresh client object. -/
structure AdapterState where
  client : Option Client
  nextGen : Nat
deriving DecidableEq, Repr

/-- `_get_client`: return the cached client, or create and cache a fresh
one when `self._client is None`.  It never fails. -/
def _get_client (s : AdapterState) : Client × AdapterState :=
  match s.client with
  | some c => (c, s)
  | none => (⟨s.nextGen⟩, ⟨some ⟨s.nextGen⟩, s.nextGen + 1⟩)

/-- `close`: release the pooled client and reset `self._client` to `None`. -/
def close (s : AdapterState) : AdapterState := ⟨none, s.nextGen⟩

/-! ### Helper lemmas -/

/-- `partTexts` distributes over list append. -/
theorem partTexts_append (ps qs : List Part) :
    partTexts (ps ++ qs) = partTexts ps ++ partTexts qs := by
  induction ps with
  | nil => rfl
  | cons p ps ih =>
    simp only [List.cons_append, partTexts]
    split_ifs <;> simp [ih]

/-- The accumulation loop of `_extract_text` is a `filterMap`: each part
contributes its stripped text when that is non-empty, and nothing otherwise. -/
theorem partTexts_eq_filterMap (ps : List Part) :
    partTexts ps = ps.filterMap fun p =>
      if pyStrip (p.text.getD "") = "" then none
      else some (pyStrip (p.text.getD "")) := by
  induction ps with
  | nil => rfl
  | cons p ps ih =>
    simp only [partTexts, List.filterMap_cons]
    split_ifs with h <;> simp [h, ih]

/-- Looking a key up in an appended association list skips a prefix that
does not bind it. -/
theorem lookup_append_of_none {β : Type} (l1 l2 : List (String × β))
    (k : String) (h : l1.lookup k = none) :
    (l1 ++ l2).lookup k = l2.lookup k := by
  induction l1 with
  | nil => rfl
  | cons p l ih =>
    obtain ⟨k2, v⟩ := p
    simp only [List.lookup, List.cons_append] at h ⊢
    cases hk : (k == k2) with
    | true => rw [hk] at h; exact Option.noConfusion h
    | false => rw [hk] at h; exact ih h

/-- The first component of `call_framework` is the retry loop run over
`range(max_retries + 1)` with a fresh request id. -/
theorem call_framework_fst (ad : N8nAgentAdapter) (beh : Nat → AttemptOut)
    (g : UuidGen) :
    (call_framework ad beh g).1
      = runAttempts beh ad.backoff g.counter (requestHeaders ad g.counter)
          (List.range (ad.max_retries + 1)) := rfl

/-- The request id drawn by `call_framework`. -/
theorem call_framework_reqId (ad : N8nAgentAdapter) (beh : Nat → AttemptOut)
    (g : UuidGen) : (call_framework ad beh g).2.1 = g.counter := rfl

/-- The generator state after `call_framework` drew its request id. -/
theorem call_framework_gen (ad : N8nAgentAdapter) (beh : Nat → AttemptOut)
    (g : UuidGen) : (call_framework ad beh g).2.2 = ⟨g.counter + 1⟩ := rfl

/-- A 4xx response terminates the loop at once with the `ValueError`,
regardless of how many attempt indices remain. -/
theorem runAttempts_client (beh : Nat → AttemptOut) (b : ℚ) (rid : Nat)
    (hdrs : List (String × String)) (a : Nat) (rest : List Nat)
    (status : Nat) (body : String) (jsonBody : List (String × JVal))
    (durMs : Nat) (hb : beh a = .response status body jsonBody durMs)
    (h4 : 400 ≤ status) (h5 : status < 500) :
    runAttempts beh b rid hdrs (a :: rest)
      = ⟨.error (.clientError rid status durMs (pyTake 512 body)), [], 1,
         [hdrs]⟩ := by
  simp only [runAttempts, hb]
  rw [if_pos ⟨h4, h5⟩]

/-- A loop over a single attempt index makes exactly one attempt, whatever
the outcome. -/
theorem runAttempts_single (beh : Nat → AttemptOut) (b : ℚ) (rid : Nat)
    (hdrs : List (String × String)) (a : Nat) :
    (runAttempts beh b rid hdrs [a]).attempts = 1 := by
  rcases hb : beh a with ⟨status, body, jsonBody, durMs⟩ | e
  · simp only [runAttempts, hb]
    split_ifs <;> rfl
  · simp only [runAttempts, hb]

/-- Every attempt of one loop run sends the same headers dict, built once
before the loop. -/
theorem runAttempts_sentHeaders_all (beh : Nat → AttemptOut) (b : ℚ)
    (rid : Nat) (hdrs : List (String × String)) :
    ∀ l, ∀ hs ∈ (runAttempts beh b rid hdrs l).sentHeaders, hs = hdrs := by
  intro l
  induction l with
  | nil => intro hs h; simp [runAttempts] at h
  | cons a rest ih =>
    intro hs h
    rcases hb : beh a with ⟨status, body, jsonBody, durMs⟩ | e
    · simp only [runAttempts, hb] at h
      split_ifs at h
      · simpa using h
      · simpa using h
      · cases rest with
        | nil => simpa using h
        | cons r rs =>
          simp only at h
          rcases (List.mem_cons).1 h with h1 | h2
          · exact h1
          · exact ih hs h2
    · simp only [runAttempts, hb] at h
      cases rest with
      | nil =>
        simp only at h
        rcases (List.mem_cons).1 h with h1 | h2
        · exact h1
        · exact ih hs h2
      | cons r rs =>
        simp only at h
        rcases (List.mem_cons).1 h with h1 | h2
        · exact h1
        · exact ih hs h2

/-- Headers are sent on every attempt: one headers record per attempt. -/
theorem runAttempts_sentHeaders_len (beh : Nat → AttemptOut) (b : ℚ)
    (rid : Nat) (hdrs : List (String × String)) :
    ∀ l, (runAttempts beh b rid hdrs l).sentHeaders.length
      = (runAttempts beh b rid hdrs l).attempts := by
  intro l
  induction l with
  | nil => rfl
  | cons a rest ih =>
    rcases hb : beh a with ⟨status, body, jsonBody, durMs⟩ | e
    · simp only [runAttempts, hb]
      split_ifs
      · rfl
      · rfl
      · cases rest with
        | nil => rfl
        | cons r rs => simpa using ih
    · simp only [runAttempts, hb]
      cases rest with
      | nil => simpa using ih
      | cons r rs => simpa using ih

/-- The `j`-th backoff delay slept while looping over the contiguous attempt
indices `a, a+1, ...` equals `b * 2 ^ (a + j)`. -/
theorem runAttempts_delays_get (beh : Nat → AttemptOut) (b : ℚ) (rid : Nat)
    (hdrs : List (String × String)) :
    ∀ (len a j : Nat),
      j < (runAttempts beh b rid hdrs (List.range' a len)).delays.length →
      (runAttempts beh b rid hdrs (List.range' a len)).delays.get? j
        = some (b * 2 ^ (a + j)) := by
  intro len
  induction len with
  | zero => intro a j hj; simp [runAttempts, List.range'] at hj
  | succ k ih =>
    intro a j hj
    rw [List.range'_succ] at hj ⊢
    rcases hb : beh a with ⟨status, body, jsonBody, durMs⟩ | e
    · simp only [runAttempts, hb] at hj ⊢
      split_ifs at hj ⊢ with h1 h2
      · simp at hj
      · simp at hj
      · cases k with
        | zero => simp [List.range', runAttempts] at hj
        | succ m =>
          rw [List.range'_succ (a + 1) m] at hj ⊢
          cases j with
          | zero => simp
          | succ j2 =>
            rw [List.get?_cons_succ, ← List.range'_succ (a + 1) m]
            have hj2 : j2 < (runAttempts beh b rid hdrs
                (List.range' (a + 1) (m + 1))).delays.length := by
              rw [List.range'_succ (a + 1) m]
              simpa using hj
            rw [ih (a + 1) j2 hj2]
            have hexp : a + 1 + j2 = a + (j2 + 1) := by omega
            rw [hexp]
    · simp only [runAttempts, hb] at hj ⊢
      cases k with
      | zero => simp [List.range', runAttempts] at hj
      | succ m =>
        rw [List.range'_succ (a + 1) m] at hj ⊢
        cases j with
        | zero => simp
        | succ j2 =>
          rw [List.get?_cons_succ, ← List.range'_succ (a + 1) m]
          have hj2 : j2 < (runAttempts beh b rid hdrs
              (List.range' (a + 1) (m + 1))).delays.length := by
            rw [List.range'_succ (a + 1) m]
            simpa using hj
          rw [ih (a + 1) j2 hj2]
          have hexp : a + 1 + j2 = a + (j2 + 1) := by omega
          rw [hexp]

/-! ### Claim theorems -/

/-- C1: the claim says a dispatch whose every attempt fails transiently must
terminate, after `maxRetries + 1` attempts, by raising a terminal error and
may never return normally.  Evaluating the code at a failing input refutes
this for the transport-error path: with `max_retries = 2` and every attempt
raising `ConnectError`, the loop makes its 3 attempts, the final `except`
block does not raise, and `call_framework` returns `None`
(`Except.ok none`), a non-error result. -/
theorem c1_transport_exhaustion_returns_none :
    ((call_framework (mkAdapter "https://n8n.example/webhook" 30 [] 2 (1/4))
        (fun _ => .transport .connectError) ⟨0⟩).1).result = .ok none ∧
    ((call_framework (mkAdapter "https://n8n.example/webhook" 30 [] 2 (1/4))
        (fun _ => .transport .connectError) ⟨0⟩).1).attempts = 3 :=
  ⟨rfl, rfl⟩

/-- C2: a backend response with a 4xx status makes exactly one attempt, with
no retry and no backoff sleep, and the raised error carries the correlation
id, the status code, the elapsed time, and the body truncated to 512
characters — for every configured retry budget. -/
theorem c2_client_error_single_attempt (ad : N8nAgentAdapter)
    (beh : Nat → AttemptOut) (g : UuidGen) (status : Nat) (body : String)
    (jsonBody : List (String × JVal)) (durMs : Nat)
    (hb : beh 0 = .response status body jsonBody durMs)
    (h4 : 400 ≤ status) (h5 : status < 500) :
    ((call_framework ad beh g).1).attempts = 1 ∧
    ((call_framework ad beh g).1).delays = [] ∧
    ((call_framework ad beh g).1).result
      = .error (.clientError (call_framework ad beh g).2.1 status durMs
          (pyTake 512 body)) := by
  rw [call_framework_fst, call_framework_reqId]
  have hr : List.range (ad.max_retries + 1)
      = 0 :: List.range' 1 ad.max_retries := by
    rw [List.range_eq_range', List.range'_succ]
  rw [hr, runAttempts_client beh ad.backoff g.counter _ 0 _ status body
    jsonBody durMs hb h4 h5]
  exact ⟨rfl, rfl, rfl⟩

/-- C2 witness: a backend always answering 404 with `max_retries = 2`. -/
theorem c2_client_error_single_attempt_witness :
    ((call_framework (mkAdapter "u" 30 [] 2 (1/4))
        (fun _ => .response 404 "not found" [] 12) ⟨0⟩).1).attempts = 1 ∧
    ((call_framework (mkAdapter "u" 30 [] 2 (1/4))
        (fun _ => .response 404 "not found" [] 12) ⟨0⟩).1).delays = [] ∧
    ((call_framework (mkAdapter "u" 30 [] 2 (1/4))
        (fun _ => .response 404 "not found" [] 12) ⟨0⟩).1).result
      = .error (.clientError 0 404 12 (pyTake 512 "not found")) :=
  c2_client_error_single_attempt (mkAdapter "u" 30 [] 2 (1/4))
    (fun _ => .response 404 "not found" [] 12) ⟨0⟩ 404 "not found" [] 12
    rfl (by decide) (by decide)

/-- C3: `from_backend` selects the reply text by the ordered-priority lookup
`output`, `result`, `message` (stringified), falls back to the
pretty-printed serialization of the whole body when none is present, and in
every case returns exactly one assistant-role message with exactly one text
content part (the function is total, so it never raises). -/
theorem c3_from_framework_priority (out : List (String × JVal)) :
    (from_framework out).role = "assistant" ∧
    (from_framework out).content.length = 1 ∧
    (∀ v, out.lookup "output" = some v →
      (from_framework out).content = [⟨"text", pyStr v⟩]) ∧
    (∀ v, out.lookup "output" = none → out.lookup "result" = some v →
      (from_framework out).content = [⟨"text", pyStr v⟩]) ∧
    (∀ v, out.lookup "output" = none → out.lookup "result" = none →
      out.lookup "message" = some v →
      (from_framework out).content = [⟨"text", pyStr v⟩]) ∧
    (out.lookup "output" = none → out.lookup "result" = none →
      out.lookup "message" = none →
      (from_framework out).content = [⟨"text", jsonDumps out⟩]) := by
  refine ⟨rfl, rfl, ?_, ?_, ?_, ?_⟩
  · intro v hv; simp [from_framework, hv]
  · intro v h1 h2; simp [from_framework, h1, h2]
  · intro v h1 h2 h3; simp [from_framework, h1, h2, h3]
  · intro h1 h2 h3; simp [from_framework, h1, h2, h3]

/-- C3 witness: the spec's examples — response `{"output": "42"}` yields one
assistant message with text `"42"`, and the empty response yields the
pretty-printed empty object. -/
theorem c3_from_framework_priority_witness :
    (from_framework [("output", .s "42")]).content = [⟨"text", "42"⟩] ∧
    (from_framework []).content = [⟨"text", "\x7b\x7d"⟩] :=
  ⟨(c3_from_framework_priority [("output", .s "42")]).2.2.1 (.s "42") rfl,
   (c3_from_framework_priority []).2.2.2.2.2 rfl rfl rfl⟩

/-- C4: `to_backend` extracts text from the most recent message only: a
string content is stripped; a list of typed parts is the space-join, in
original order, of the non-empty stripped part texts (parts without text
contribute nothing); an empty message list yields the empty string rather
than an error. -/
theorem c4_to_framework_text_extraction (params : MessageSendParams) :
    (params.messages = [] →
      (to_framework params).lookup "message" = some (.s "")) ∧
    (∀ m s, params.messages.getLast? = some m → m.content = .str s →
      (to_framework params).lookup "message" = some (.s (pyStrip s))) ∧
    (∀ m ps, params.messages.getLast? = some m → m.content = .parts ps →
      (to_framework params).lookup "message"
        = some (.s (String.intercalate " "
            (ps.filterMap fun p =>
              if pyStrip (p.text.getD "") = "" then none
              else some (pyStrip (p.text.getD "")))))) := by
  have hm : (to_framework params).lookup "message"
      = some (.s (userMessage params)) := rfl
  refine ⟨?_, ?_, ?_⟩
  · intro h; rw [hm]; simp [userMessage, h]
  · intro m s h1 h2; rw [hm]
    simp [userMessage, h1, _extract_text, h2]
  · intro m ps h1 h2; rw [hm]
    simp [userMessage, h1, _extract_text, h2, partTexts_eq_filterMap]

/-- C4 witness: the spec's round-trip example — a content list with texts
`"a"`, `""`, `"b"` yields `"a b"` — and the empty message list yields `""`. -/
theorem c4_to_framework_text_extraction_witness :
    (to_framework ⟨[⟨.parts [⟨some "a"⟩, ⟨some ""⟩, ⟨some "b"⟩]⟩],
        none, none⟩).lookup "message" = some (.s "a b") ∧
    (to_framework ⟨[], some "sid", none⟩).lookup "message" = some (.s "") :=
  ⟨(c4_to_framework_text_extraction
      ⟨[⟨.parts [⟨some "a"⟩, ⟨some ""⟩, ⟨some "b"⟩]⟩], none, none⟩).2.2
      ⟨.parts [⟨some "a"⟩, ⟨some ""⟩, ⟨some "b"⟩]⟩
      [⟨some "a"⟩, ⟨some ""⟩, ⟨some "b"⟩] rfl rfl,
   (c4_to_framework_text_extraction ⟨[], some "sid", none⟩).1 rfl⟩

/-- C5: the delay slept before retrying after the `i`-th attempt (0-based)
is `backoff * 2 ^ i` — one formula for both the 5xx-status path and the
transport-error path, since every slept delay of any behaviour satisfies it
— and for a positive base the delays within one logical call are strictly
increasing. -/
theorem c5_backoff_exponential_monotone (ad : N8nAgentAdapter)
    (beh : Nat → AttemptOut) (g : UuidGen) (j : Nat)
    (hj : j < ((call_framework ad beh g).1).delays.length) :
    ((call_framework ad beh g).1).delays.get? j
      = some (ad.backoff * 2 ^ j) ∧
    (0 < ad.backoff → ∀ i, i < j →
      ((call_framework ad beh g).1).delays.get? i
        = some (ad.backoff * 2 ^ i) ∧
      ad.backoff * 2 ^ i < ad.backoff * 2 ^ j) := by
  rw [call_framework_fst, List.range_eq_range'] at hj ⊢
  constructor
  · have h := runAttempts_delays_get beh ad.backoff g.counter
      (requestHeaders ad g.counter) (ad.max_retries + 1) 0 j hj
    simpa using h
  · intro hb i hij
    have hi : i < (runAttempts beh ad.backoff g.counter
        (requestHeaders ad g.counter)
        (List.range' 0 (ad.max_retries + 1))).delays.length :=
      lt_trans hij hj
    have h := runAttempts_delays_get beh ad.backoff g.counter
      (requestHeaders ad g.counter) (ad.max_retries + 1) 0 i hi
    constructor
    · simpa using h
    · exact mul_lt_mul_of_pos_left (pow_lt_pow_right₀ one_lt_two hij) hb

/-- C5 witness: `backoff = 1/4`, first attempt 500, second a read timeout,
third success: the two delays are `1/4 * 2 ^ 0` and `1/4 * 2 ^ 1`, and the
first is smaller. -/
theorem c5_backoff_exponential_monotone_witness :
    ((call_framework (mkAdapter "u" 30 [] 2 (1/4))
        (fun n => if n = 0 then .response 500 "boom" [] 5
          else if n = 1 then .transport .readTimeout
          else .response 200 "ok" [] 7) ⟨0⟩).1).delays.get? 1
      = some ((mkAdapter "u" 30 [] 2 (1/4)).backoff * 2 ^ 1) ∧
    (0 < (mkAdapter "u" 30 [] 2 (1/4)).backoff → ∀ i, i < 1 →
      ((call_framework (mkAdapter "u" 30 [] 2 (1/4))
          (fun n => if n = 0 then .response 500 "boom" [] 5
            else if n = 1 then .transport .readTimeout
            else .response 200 "ok" [] 7) ⟨0⟩).1).delays.get? i
        = some ((mkAdapter "u" 30 [] 2 (1/4)).backoff * 2 ^ i) ∧
      (mkAdapter "u" 30 [] 2 (1/4)).backoff * 2 ^ i
        < (mkAdapter "u" 30 [] 2 (1/4)).backoff * 2 ^ 1) :=
  c5_backoff_exponential_monotone (mkAdapter "u" 30 [] 2 (1/4))
    (fun n => if n = 0 then .response 500 "boom" [] 5
      else if n = 1 then .transport .readTimeout
      else .response 200 "ok" [] 7) ⟨0⟩ 1 (by decide)

/-- C6: `max_retries = 0` is legal and gives exactly one attempt per call,
and a negative `max_retries` is normalized to `0` by
`max(0, int(max_retries))` — never treated as infinite. -/
theorem c6_max_retries_normalization (url : String) (t : Int)
    (hs : List (String × String)) (n : Int) (b : ℚ) (hn : n ≤ 0)
    (beh : Nat → AttemptOut) (g : UuidGen) :
    (mkAdapter url t hs n b).max_retries = 0 ∧
    ((call_framework (mkAdapter url t hs n b) beh g).1).attempts = 1 := by
  have hmax : max 0 n = 0 := max_eq_left hn
  have h0 : (mkAdapter url t hs n b).max_retries = 0 := by
    simp [mkAdapter, hmax]
  refine ⟨h0, ?_⟩
  rw [call_framework_fst, h0]
  exact runAttempts_single beh _ _ _ 0

/-- C6 witness: `max_retries = -3` and `max_retries = 0` both yield a budget
of `0` and a single attempt against an always-failing backend. -/
theorem c6_max_retries_normalization_witness :
    ((mkAdapter "u" 30 [] (-3) (1/4)).max_retries = 0 ∧
      ((call_framework (mkAdapter "u" 30 [] (-3) (1/4))
          (fun _ => .transport .connectError) ⟨0⟩).1).attempts = 1) ∧
    ((mkAdapter "u" 30 [] 0 (1/4)).max_retries = 0 ∧
      ((call_framework (mkAdapter "u" 30 [] 0 (1/4))
          (fun _ => .response 500 "boom" [] 5) ⟨0⟩).1).attempts = 1) :=
  ⟨c6_max_retries_normalization "u" 30 [] (-3) (1/4) (by decide)
      (fun _ => .transport .connectError) ⟨0⟩,
   c6_max_retries_normalization "u" 30 [] 0 (1/4) (by decide)
      (fun _ => .response 500 "boom" [] 5) ⟨0⟩⟩

/-- C7: the request id is drawn fresh per logical call — two calls, one run
after the other, never share one — and every attempt of one call sends that
same id in its `X-Request-Id` header (provided the configured extra headers
do not themselves bind `X-Request-Id`, which dict merge would let win). -/
theorem c7_correlation_id_fresh_and_stable (ad : N8nAgentAdapter)
    (beh beh2 : Nat → AttemptOut) (g : UuidGen)
    (hx : ad.headers.lookup "X-Request-Id" = none) :
    (call_framework ad beh g).2.1
      ≠ (call_framework ad beh2 (call_framework ad beh g).2.2).2.1 ∧
    (∀ hs ∈ ((call_framework ad beh g).1).sentHeaders,
      hs.lookup "X-Request-Id"
        = some (toString (call_framework ad beh g).2.1)) ∧
    ((call_framework ad beh g).1).sentHeaders.length
      = ((call_framework ad beh g).1).attempts := by
  refine ⟨?_, ?_, ?_⟩
  · show g.counter ≠ g.counter + 1
    omega
  · intro hs hmem
    rw [call_framework_fst] at hmem
    have heq := runAttempts_sentHeaders_all beh ad.backoff g.counter
      (requestHeaders ad g.counter) _ hs hmem
    rw [heq, call_framework_reqId]
    unfold requestHeaders
    rw [lookup_append_of_none _ _ _ hx]
    rfl
  · rw [call_framework_fst]
    exact runAttempts_sentHeaders_len beh ad.backoff g.counter _ _

/-- C7 witness: two consecutive calls from generator state 0 use ids 0 and
1, and the first call (two attempts: one 503, one timeout) carries
`X-Request-Id: 0` on each attempt. -/
theorem c7_correlation_id_fresh_and_stable_witness :
    ((call_framework (mkAdapter "u" 30 [("Authorization", "Bearer t")] 1
        (1/4)) (fun _ => .transport .readTimeout) ⟨0⟩).2.1
      ≠ (call_framework (mkAdapter "u" 30 [("Authorization", "Bearer t")] 1
          (1/4)) (fun _ => .response 503 "down" [] 3)
          (call_framework (mkAdapter "u" 30 [("Authorization", "Bearer t")] 1
            (1/4)) (fun _ => .transport .readTimeout) ⟨0⟩).2.2).2.1) ∧
    (∀ hs ∈ ((call_framework (mkAdapter "u" 30
        [("Authorization", "Bearer t")] 1 (1/4))
        (fun _ => .transport .readTimeout) ⟨0⟩).1).sentHeaders,
      hs.lookup "X-Request-Id"
        = some (toString (call_framework (mkAdapter "u" 30
            [("Authorization", "Bearer t")] 1 (1/4))
            (fun _ => .transport .readTimeout) ⟨0⟩).2.1)) ∧
    ((call_framework (mkAdapter "u" 30 [("Authorization", "Bearer t")] 1
        (1/4)) (fun _ => .transport .readTimeout) ⟨0⟩).1).sentHeaders.length
      = ((call_framework (mkAdapter "u" 30 [("Authorization", "Bearer t")] 1
          (1/4)) (fun _ => .transport .readTimeout) ⟨0⟩).1).attempts :=
  c7_correlation_id_fresh_and_stable
    (mkAdapter "u" 30 [("Authorization", "Bearer t")] 1 (1/4))
    (fun _ => .transport .readTimeout) (fun _ => .response 503 "down" [] 3)
    ⟨0⟩ rfl

/-- C8: the payload emitted by `to_backend` is exactly
`{message: text, metadata: {session_id, context}}`: both extracted fields
are present with their extracted values and no other key exists — the
adapter configures no static template fields, so the (empty) template merge
cannot override an extracted field. -/
theorem c8_payload_shape (params : MessageSendParams) :
    (to_framework params).lookup "message"
      = some (.s (userMessage params)) ∧
    (to_framework params).lookup "metadata"
      = some (.obj [("session_id", joptStr params.session_id),
                    ("context", joptStr params.context)]) ∧
    (to_framework params).map Prod.fst = ["message", "metadata"] :=
  ⟨rfl, rfl, rfl⟩

/-- C9: the claim says that after `close` released the pooled client, a
further call attempt must fail fast rather than silently reconnect.
Evaluating the code refutes this: `close` resets `self._client` to `None`,
and the next `_get_client` silently allocates a brand-new client and caches
it — it has no failure path at all. -/
theorem c9_silent_reconnect_after_close :
    (close ⟨some ⟨0⟩, 1⟩).client = none ∧
    _get_client (close ⟨some ⟨0⟩, 1⟩) = (⟨1⟩, ⟨some ⟨1⟩, 2⟩) :=
  ⟨rfl, rfl⟩

/-- C10: a part whose text strips to nothing (whitespace-only, empty,
missing, or `None`) contributes nothing to the extracted message, and a
message lacking a `content` attribute — or whose content has any other
type — yields the empty string rather than an error. -/
theorem c10_whitespace_part_contributes_nothing (ps qs : List Part)
    (p : Part) (h : pyStrip (p.text.getD "") = "") :
    _extract_text ⟨.parts (ps ++ p :: qs)⟩
      = _extract_text ⟨.parts (ps ++ qs)⟩ ∧
    _extract_text ⟨.missing⟩ = "" ∧
    _extract_text ⟨.other⟩ = "" := by
  refine ⟨?_, rfl, rfl⟩
  simp only [_extract_text]
  rw [partTexts_append, partTexts_append]
  have hp : partTexts (p :: qs) = partTexts qs := by
    simp only [partTexts]
    rw [if_pos h]
  rw [hp]

/-- C10 witness: a whitespace-only part between `"a"` and `"b"` changes
nothing. -/
theorem c10_whitespace_part_contributes_nothing_witness :
    _extract_text ⟨.parts [⟨some "a"⟩, ⟨some "   "⟩, ⟨some "b"⟩]⟩
      = _extract_text ⟨.parts [⟨some "a"⟩, ⟨some "b"⟩]⟩ ∧
    _extract_text ⟨.missing⟩ = "" ∧
    _extract_text ⟨.other⟩ = "" :=
  c10_whitespace_part_contributes_nothing [⟨some "a"⟩] [⟨some "b"⟩]
    ⟨some "   "⟩ (by decide)

end A2A
